import Mathlib

/-!
Verification of the Backend Readiness Orchestrator of bridge-cli
(src/bridge.py), as a shallow embedding in Lean 4.

External effects (socket probes, subprocess exit statuses, output of the
inspection command, the filesystem) are supplied as explicit oracle inputs;
everything else follows the Python source line by line.
-/

namespace Bridge

/-- Python truthiness of an optional string: `None` and the empty string are
falsy, every other string is truthy.  Mirrors how `cfg.get("GEMINI_API_KEY")`
is used in a boolean context at src/bridge.py line 174. -/
def optTruthy : Option String → Bool
  | none => false
  | some s => s != ""

/-- The menu state computed by one iteration of the main loop
(src/bridge.py lines 158-184): cloud availability, the auto-start
annotation on the Local entry, and the default highlighted choice. -/
structure MenuState where
  cloudAvailable : Bool
  localAutoStart : Bool
  defaultChoice : String
deriving DecidableEq, Repr

/-- Embeds the menu-render block of `main` (src/bridge.py lines 158-184):
`cloud_ready = online and cfg.get("GEMINI_API_KEY")`, the Local entry is
annotated with the auto-start marker when the service probe reports it
down, and the default choice is `"1"` if cloud is ready, else `"2"`. -/
def renderMenu (online : Bool) (ollama_up : Bool) (apiKey : Option String) :
    MenuState :=
  { cloudAvailable := online && optTruthy apiKey
    localAutoStart := !ollama_up
    defaultChoice := if online && optTruthy apiKey then "1" else "2" }

/-- Result of one run of `ensure_ollama_running` (src/bridge.py lines 55-76).
`attempts` counts executions of the poll-loop readiness check, `sleeps`
counts executions of `time.sleep(0.5)`; `timedOut` records the
could-not-start failure print, `toolMissing` the `FileNotFoundError`
handler. -/
structure SvcResult where
  ok : Bool
  spawned : Bool
  attempts : Nat
  sleeps : Nat
  timedOut : Bool
  toolMissing : Bool
deriving DecidableEq, Repr

/-- The poll loop body of `ensure_ollama_running` (src/bridge.py lines
66-70), iterated over a list of attempt numbers: each iteration first runs
the readiness check (success returns at once) and otherwise sleeps 0.5 s
and continues.  Returns (success, checks run, sleeps run). -/
def pollSeq (poll : Nat → Bool) : List Nat → Bool × Nat × Nat
  | [] => (false, 0, 0)
  | i :: rest =>
    if poll i then (true, 1, 0)
    else
      let r := pollSeq poll rest
      (r.1, r.2.1 + 1, r.2.2 + 1)

/-- The attempt numbers of `for _ in range(20)` (src/bridge.py line 66),
numbered 1..20. -/
def attemptNumbers : List Nat := (List.range 20).map (· + 1)

/-- Embeds `ensure_ollama_running` (src/bridge.py lines 55-76).
Oracles: `upNow` is the result of the initial `check_connection`
(line 57), `installed` is whether the `ollama` binary exists (`Popen`
raises `FileNotFoundError` when it does not, line 74), and `poll i` is the
result of the `check_connection` on poll attempt `i` (line 67). -/
def ensure_ollama_running (upNow : Bool) (installed : Bool)
    (poll : Nat → Bool) : SvcResult :=
  if upNow then
    { ok := true, spawned := false, attempts := 0, sleeps := 0,
      timedOut := false, toolMissing := false }
  else if !installed then
    { ok := false, spawned := false, attempts := 0, sleeps := 0,
      timedOut := false, toolMissing := true }
  else
    let r := pollSeq poll attemptNumbers
    { ok := r.1, spawned := true, attempts := r.2.1, sleeps := r.2.2,
      timedOut := !r.1, toolMissing := false }

/-- Left-to-right, non-overlapping replacement of every occurrence of
`pat` by `rep` in a character list, with the same scanning order as
Python `str.replace`: on a match the scan resumes after the matched
region.  `fuel` bounds the recursion; each step consumes at least one
character, so `fuel = s.length` is always enough. -/
def replaceAllAux (pat rep : List Char) : Nat → List Char → List Char
  | 0, s => s
  | _ + 1, [] => []
  | fuel + 1, c :: cs =>
    if pat.isPrefixOf (c :: cs) && !pat.isEmpty then
      rep ++ replaceAllAux pat rep fuel (cs.drop (pat.length - 1))
    else
      c :: replaceAllAux pat rep fuel cs

/-- Python `s.replace(pat, rep)` on strings (all occurrences replaced,
left to right, non-overlapping), as used at src/bridge.py line 81. -/
def pyReplace (s pat rep : String) : String :=
  ⟨replaceAllAux pat.data rep.data s.data.length s.data⟩

/-- Substring containment test on character lists: `needle` occurs
contiguously in `hay`. -/
def containsSub (needle hay : List Char) : Bool :=
  (List.range (hay.length + 1)).any fun i => needle.isPrefixOf (hay.drop i)

/-- Python `needle in hay` on strings (substring containment), as used at
src/bridge.py line 85. -/
def strContains (hay needle : String) : Bool :=
  containsSub needle.data hay.data

/-- Result of one run of a Python call that either returns a value or
raises an exception that the function itself does not catch. -/
inductive PyOutcome (α : Type) where
  | ret (a : α)
  | raised (exc : String)
deriving DecidableEq, Repr

/-- Result of one run of `ensure_model_pulled` (src/bridge.py lines
78-95), together with the observable actions it took: `checkedId` is the
string matched against the inspection output and handed to the fetch
command, `pullInvoked`/`pullArg` record whether and with which argument
`ollama pull` ran, `fetchFailed` records the failed-download print. -/
structure PullRun where
  result : PyOutcome Bool
  checkedId : String
  pullInvoked : Bool
  pullArg : Option String
  fetchFailed : Bool
deriving DecidableEq, Repr

/-- Embeds `ensure_model_pulled` (src/bridge.py lines 78-95).
`clean_id = model_id.replace("ollama/", "")`; the `ollama list` output is
the oracle `listOut` and the fetch commands exit status is the oracle
`pullExitZero`.  When the `ollama` binary is absent, the bare
`subprocess.run(["ollama", "list"], ...)` at line 84 raises
`FileNotFoundError`, which this function does not catch (its only handler,
line 93, catches `CalledProcessError` around the pull). -/
def ensure_model_pulled (installed : Bool) (model_id : String)
    (listOut : String) (pullExitZero : Bool) : PullRun :=
  let clean_id := pyReplace model_id "ollama/" ""
  if !installed then
    { result := .raised "FileNotFoundError", checkedId := clean_id,
      pullInvoked := false, pullArg := none, fetchFailed := false }
  else if strContains listOut clean_id then
    { result := .ret true, checkedId := clean_id,
      pullInvoked := false, pullArg := none, fetchFailed := false }
  else if pullExitZero then
    { result := .ret true, checkedId := clean_id,
      pullInvoked := true, pullArg := some clean_id, fetchFailed := false }
  else
    { result := .ret false, checkedId := clean_id,
      pullInvoked := true, pullArg := some clean_id, fetchFailed := true }

/-- Embeds `get_aider_path` (src/bridge.py lines 97-111).  The filesystem
is the oracle `fileAt` (`os.path.exists`); `shutil.which` is modelled as
the first directory of the search path holding the executable.  First the
directory colocated with the interpreter is checked, then the search
path; `none` when both fail. -/
def get_aider_path (venvBin : String) (fileAt : String → Bool)
    (pathDirs : List String) : Option String :=
  let aider_path := venvBin ++ "/aider"
  if fileAt aider_path then some aider_path
  else
    match pathDirs.find? (fun d => fileAt (d ++ "/aider")) with
    | some d => some (d ++ "/aider")
    | none => none

/-- Lookup in a Python dict modelled as an insertion-ordered association
list. -/
def dictGet (d : List (String × String)) (k : String) : Option String :=
  (d.find? fun p => p.1 == k).map Prod.snd

/-- Python `d[k] = v` on a dict modelled as an insertion-ordered
association list: overwrite in place when the key exists, else append. -/
def dictSet (d : List (String × String)) (k v : String) :
    List (String × String) :=
  if d.any (fun p => p.1 == k) then
    d.map fun p => if p.1 == k then (k, v) else p
  else
    d ++ [(k, v)]

/-- The observable outcome of one iteration of the mode-selection loop of
`main` (src/bridge.py lines 158-235): return to the menu (`continue`),
terminate via `sys.exit(code)` after printing `msgs`, hand off to the
agent process with an argument vector and an environment, or crash on an
exception no handler catches. -/
inductive Outcome where
  | menu
  | exited (code : Nat) (msgs : List String)
  | launched (args : List String) (env : List (String × String))
  | crashed (exc : String)
deriving DecidableEq, Repr

/-- The oracle inputs of one iteration of the mode-selection loop: probe
results, configuration snapshot, presence of the `ollama` binary, the
poll-time probe results, the inspection output, the fetch exit status,
the inherited environment, and the filesystem as seen by
`get_aider_path`. -/
structure World where
  online : Bool
  ollamaUpAtMenu : Bool
  apiKey : Option String
  geminiModel : String
  localModel : String
  ollamaInstalled : Bool
  svcUpAtCheck : Bool
  poll : Nat → Bool
  listOut : String
  pullExitZero : Bool
  baseEnv : List (String × String)
  venvBin : String
  fileAt : String → Bool
  pathDirs : List String

/-- The diagnostic printed by `main` when `get_aider_path` returns `None`
(src/bridge.py lines 218-219); the source quotes the word aider in the
first line.  Only the interpreter-colocated directory is named. -/
def aiderMissingMsgs (venvBin : String) : List String :=
  ["Error: aider not found in virtual environment.",
   "Looked in: " ++ venvBin]

/-- The argument vector built at src/bridge.py lines 224-230. -/
def aiderArgs (aiderPath model : String) : List String :=
  [aiderPath, "--model", model, "--architect", "--watch-files",
   "--no-auto-commits"]

/-- The FIND AIDER block and handoff of `main` (src/bridge.py lines
216-233): resolve the agent executable, exit with status 1 and the
diagnostic when missing, otherwise run it with the fixed flags and the
given environment. -/
def dispatchAider (w : World) (model : String)
    (env : List (String × String)) : Outcome :=
  match get_aider_path w.venvBin w.fileAt w.pathDirs with
  | none => .exited 1 (aiderMissingMsgs w.venvBin)
  | some p => .launched (aiderArgs p model) env

/-- One iteration of the mode-selection loop of `main` (src/bridge.py
lines 158-235) for a given menu choice.  `q` exits with status 0; `3`
runs the settings menu and continues; `1` continues when cloud is not
ready, otherwise overlays the credential on a copy of the inherited
environment and dispatches; `2` runs the two remediations in order
(service before artifact), returning to the menu on either reported
failure, crashing on the uncaught `FileNotFoundError` of the artifact
check, and dispatching with the unmodified environment copy on
success. -/
def mainStep (w : World) (choice : String) : Outcome :=
  if choice = "q" then .exited 0 []
  else if choice = "3" then .menu
  else if choice = "1" then
    if !(w.online && optTruthy w.apiKey) then .menu
    else
      dispatchAider w w.geminiModel
        (dictSet w.baseEnv "GEMINI_API_KEY" (w.apiKey.getD ""))
  else if choice = "2" then
    let svc := ensure_ollama_running w.svcUpAtCheck w.ollamaInstalled w.poll
    if !svc.ok then .menu
    else
      let pull := ensure_model_pulled w.ollamaInstalled w.localModel
        w.listOut w.pullExitZero
      match pull.result with
      | .raised e => .crashed e
      | .ret true => dispatchAider w w.localModel w.baseEnv
      | .ret false => .menu
  else .menu

/-- A concrete world whose service probe is down at the initial check and
first succeeds on poll attempt 3, with the artifact already present and
the agent executable next to the interpreter. -/
def wPollThird : World :=
  { online := false, ollamaUpAtMenu := false, apiKey := none,
    geminiModel := "gemini/gemini-1.5-pro-latest",
    localModel := "ollama/qwen2.5-coder:32b",
    ollamaInstalled := true, svcUpAtCheck := false,
    poll := fun i => Nat.ble 3 i,
    listOut := "qwen2.5-coder:32b latest",
    pullExitZero := true,
    baseEnv := [("PATH", "/x")],
    venvBin := "/venv/bin",
    fileAt := fun s => s == "/venv/bin/aider",
    pathDirs := [] }

/-- A concrete world in which the local service port accepts connections
(so service remediation reports ready at once) while the `ollama` binary
itself is absent. -/
def wSvcUpNoTool : World :=
  { online := false, ollamaUpAtMenu := true, apiKey := none,
    geminiModel := "gemini/gemini-1.5-pro-latest",
    localModel := "ollama/qwen2.5-coder:32b",
    ollamaInstalled := false, svcUpAtCheck := true,
    poll := fun _ => false,
    listOut := "", pullExitZero := true,
    baseEnv := [("PATH", "/x")],
    venvBin := "/venv/bin",
    fileAt := fun _ => false,
    pathDirs := ["/usr/bin"] }

/-- A concrete world in which the local service never becomes reachable
although the `ollama` binary is installed. -/
def wNeverUp : World :=
  { online := false, ollamaUpAtMenu := false, apiKey := none,
    geminiModel := "gemini/gemini-1.5-pro-latest",
    localModel := "ollama/qwen2.5-coder:32b",
    ollamaInstalled := true, svcUpAtCheck := false,
    poll := fun _ => false,
    listOut := "", pullExitZero := true,
    baseEnv := [("PATH", "/x")],
    venvBin := "/venv/bin",
    fileAt := fun _ => false,
    pathDirs := ["/usr/bin"] }

/-- A concrete world with cloud ready but the agent executable absent
both next to the interpreter and from the search path. -/
def wNoAider : World :=
  { online := true, ollamaUpAtMenu := true, apiKey := some "k",
    geminiModel := "gemini/gemini-1.5-pro-latest",
    localModel := "ollama/qwen2.5-coder:32b",
    ollamaInstalled := true, svcUpAtCheck := true,
    poll := fun _ => true,
    listOut := "qwen2.5-coder:32b latest", pullExitZero := true,
    baseEnv := [("PATH", "/usr/bin")],
    venvBin := "/venv/bin",
    fileAt := fun _ => false,
    pathDirs := ["/usr/bin"] }

/-- A concrete world with the service reachable and the tool installed,
whose artifact is absent from the inspection output and whose fetch
command exits non-zero. -/
def wFetchFail : World :=
  { online := false, ollamaUpAtMenu := true, apiKey := none,
    geminiModel := "gemini/gemini-1.5-pro-latest",
    localModel := "ollama/qwen2.5-coder:32b",
    ollamaInstalled := true, svcUpAtCheck := true,
    poll := fun _ => false,
    listOut := "NAME ID SIZE", pullExitZero := false,
    baseEnv := [("PATH", "/x")],
    venvBin := "/venv/bin",
    fileAt := fun s => s == "/venv/bin/aider",
    pathDirs := [] }

/-- A concrete world in which both Cloud and Local launches can proceed:
cloud ready, service reachable, tool installed, artifact present, agent
executable next to the interpreter. -/
def wLaunch : World :=
  { online := true, ollamaUpAtMenu := true, apiKey := some "secret",
    geminiModel := "gemini/gemini-1.5-pro-latest",
    localModel := "ollama/qwen2.5-coder:32b",
    ollamaInstalled := true, svcUpAtCheck := true,
    poll := fun _ => true,
    listOut := "qwen2.5-coder:32b latest", pullExitZero := true,
    baseEnv := [("PATH", "/x")],
    venvBin := "/venv/bin",
    fileAt := fun s => s == "/venv/bin/aider",
    pathDirs := [] }

/-- When every poll-time probe fails, the loop runs one check and one
sleep per attempt number and reports failure. -/
theorem pollSeq_never (poll : Nat → Bool) (h : ∀ i, poll i = false) :
    ∀ l, pollSeq poll l = (false, l.length, l.length) := by
  intro l
  induction l with
  | nil => rfl
  | cons i rest ih => simp [pollSeq, h i, ih]

/-- C1: cloud-mode availability is a deterministic function of the probe
results and configuration: for every combination of internet probe,
credential and local-service probe, cloud is available iff the internet
probe succeeded and a non-empty credential is configured, independent of
the local-service probe. -/
theorem c1_cloud_availability (o l l' : Bool) (k : Option String) :
    (renderMenu o l k).cloudAvailable = (renderMenu o l' k).cloudAvailable ∧
    ((renderMenu o l k).cloudAvailable = true ↔
      o = true ∧ ∃ s, k = some s ∧ s ≠ "") := by
  refine ⟨rfl, ?_⟩
  cases k with
  | none => simp [renderMenu, optTruthy]
  | some s => simp [renderMenu, optTruthy, bne_iff_ne]

/-- C2: when the readiness probe never succeeds (neither at the initial
check nor at any poll attempt), service remediation fails by timeout
after exactly the attempt ceiling of 20 poll checks, with one 0.5 s sleep
per attempt — never fewer and never more. -/
theorem c2_remediation_timeout (poll : Nat → Bool) (h : ∀ i, poll i = false) :
    ensure_ollama_running false true poll =
      { ok := false, spawned := true, attempts := 20, sleeps := 20,
        timedOut := true, toolMissing := false } := by
  simp [ensure_ollama_running, pollSeq_never poll h, attemptNumbers]

/-- Witness for C2 at the concrete always-false probe. -/
theorem c2_remediation_timeout_witness :
    ensure_ollama_running false true (fun _ => false) =
      { ok := false, spawned := true, attempts := 20, sleeps := 20,
        timedOut := true, toolMissing := false } :=
  c2_remediation_timeout (fun _ => false) (fun _ => rfl)

/-- C3: service remediation is idempotent: when the service is already
reachable at the initial check, no process is spawned, no poll check and
no sleep happen, and the remediation reports ready immediately — for any
state of the binary and of the later probes. -/
theorem c3_remediation_idempotent (installed : Bool) (poll : Nat → Bool) :
    ensure_ollama_running true installed poll =
      { ok := true, spawned := false, attempts := 0, sleeps := 0,
        timedOut := false, toolMissing := false } := rfl

/-- Unfolding of `mainStep` at the literal Local choice. -/
theorem mainStep_two (w : World) :
    mainStep w "2" =
      (if !(ensure_ollama_running w.svcUpAtCheck w.ollamaInstalled w.poll).ok
       then Outcome.menu
       else
         match (ensure_model_pulled w.ollamaInstalled w.localModel w.listOut
             w.pullExitZero).result with
         | .raised e => Outcome.crashed e
         | .ret true => dispatchAider w w.localModel w.baseEnv
         | .ret false => Outcome.menu) := rfl

/-- Unfolding of `mainStep` at the literal Cloud choice. -/
theorem mainStep_one (w : World) :
    mainStep w "1" =
      (if !(w.online && optTruthy w.apiKey) then Outcome.menu
       else
         dispatchAider w w.geminiModel
           (dictSet w.baseEnv "GEMINI_API_KEY" (w.apiKey.getD ""))) := rfl

/-- Removal of only a leading occurrence of the known prefix, following
the words of the spec sentence on the artifact inventory check (the
identifier with a known prefix stripped before matching); used solely to
compare the spec wording against the source, which removes every
occurrence. -/
def specStripId (s : String) : String :=
  if ("ollama/".data).isPrefixOf s.data then ⟨s.data.drop 7⟩ else s

/-- C4 counterexample: for the identifier "ollama/abollama/cd", the
inspection output "abollama/cd" does contain the identifier with the
leading "ollama/" stripped, yet the code (which removes every occurrence,
yielding "abcd") finds no match and does invoke the fetch command —
refuting the claim as stated. -/
theorem c4_counterexample :
    strContains "abollama/cd" (specStripId "ollama/abollama/cd") = true ∧
    (ensure_model_pulled true "ollama/abollama/cd" "abollama/cd"
      true).pullInvoked = true := by decide

/-- C4 amended: for every model identifier, if the inspection output
contains the identifier with every occurrence of "ollama/" removed as a
substring, the remediation returns success and no fetch command is
invoked. -/
theorem c4_artifact_short_circuit (mid listOut : String) (pz : Bool)
    (h : strContains listOut (pyReplace mid "ollama/" "") = true) :
    (ensure_model_pulled true mid listOut pz).result = .ret true ∧
    (ensure_model_pulled true mid listOut pz).pullInvoked = false := by
  simp [ensure_model_pulled, h]

/-- Witness for C4 at a concrete identifier present in the inspection
output. -/
theorem c4_artifact_short_circuit_witness :
    (ensure_model_pulled true "ollama/llama3" "llama3:latest 4.7GB"
      true).result = PyOutcome.ret true ∧
    (ensure_model_pulled true "ollama/llama3" "llama3:latest 4.7GB"
      true).pullInvoked = false :=
  c4_artifact_short_circuit "ollama/llama3" "llama3:latest 4.7GB" true
    (by decide)

/-- C6 counterexample: with the service down at the initial check and the
poll probe first succeeding at attempt 3, the run performs 3 poll checks
but only 2 sleeps of 0.5 s — an elapsed polling wait of about 1.0 s, not
the claimed three 0.5 s intervals (about 1.5 s). -/
theorem c6_counterexample :
    ensure_ollama_running false true (fun i => Nat.ble 3 i) =
      { ok := true, spawned := true, attempts := 3, sleeps := 2,
        timedOut := false, toolMissing := false } := by decide

/-- C6 amended: when the service starts out unreachable and the readiness
probe first succeeds on poll attempt 3, the remediation spawns the
service, runs exactly 3 poll checks and 2 sleeps of 0.5 s (elapsed
polling wait about 1.0 s), ends ready, and — when the artifact is present
and the agent executable resolves next to the interpreter — the Local
launch proceeds. -/
theorem c6_poll_success_third_attempt (w : World)
    (h0 : w.svcUpAtCheck = false) (h1 : w.ollamaInstalled = true)
    (h2 : w.poll 1 = false) (h3 : w.poll 2 = false) (h4 : w.poll 3 = true)
    (h5 : strContains w.listOut (pyReplace w.localModel "ollama/" "") = true)
    (h6 : w.fileAt (w.venvBin ++ "/aider") = true) :
    ensure_ollama_running w.svcUpAtCheck w.ollamaInstalled w.poll =
      { ok := true, spawned := true, attempts := 3, sleeps := 2,
        timedOut := false, toolMissing := false } ∧
    mainStep w "2" =
      .launched (aiderArgs (w.venvBin ++ "/aider") w.localModel) w.baseEnv := by
  have ha : attemptNumbers = 1 :: 2 :: 3 :: (List.range 17).map (· + 4) := by
    decide
  have hseq : pollSeq w.poll attemptNumbers = (true, 3, 2) := by
    rw [ha]
    simp [pollSeq, h2, h3, h4]
  have hsvc : ensure_ollama_running w.svcUpAtCheck w.ollamaInstalled w.poll =
      { ok := true, spawned := true, attempts := 3, sleeps := 2,
        timedOut := false, toolMissing := false } := by
    simp [ensure_ollama_running, h0, h1, hseq]
  refine ⟨hsvc, ?_⟩
  rw [mainStep_two, hsvc]
  simp [ensure_model_pulled, h1, h5, dispatchAider, get_aider_path, h6]

/-- Witness for C6 at a concrete world whose probe first succeeds on poll
attempt 3. -/
theorem c6_poll_success_third_attempt_witness :
    ensure_ollama_running wPollThird.svcUpAtCheck wPollThird.ollamaInstalled
      wPollThird.poll =
      { ok := true, spawned := true, attempts := 3, sleeps := 2,
        timedOut := false, toolMissing := false } ∧
    mainStep wPollThird "2" =
      .launched (aiderArgs (wPollThird.venvBin ++ "/aider")
        wPollThird.localModel) wPollThird.baseEnv :=
  c6_poll_success_third_attempt wPollThird rfl rfl (by decide) (by decide)
    (by decide) (by decide) rfl

/-- C5 counterexample: when the service port is reachable but the
`ollama` binary is absent, the artifact check raises `FileNotFoundError`
with no handler, so the iteration crashes the process instead of
returning control to the mode-selection loop — refuting the claim that
every failure below the top level is recovered locally and only the
agent-executable-not-found error is fatal. -/
theorem c5_counterexample :
    mainStep wSvcUpNoTool "2" = Outcome.crashed "FileNotFoundError" := by
  decide

/-- C5 amended: every failure below the top level except tool absence
during the artifact check is recovered locally by returning to the
mode-selection loop — service remediation failure (timeout or missing
binary at start-up) and a failed fetch both return to the menu, and the
agent-executable-not-found error exits with status 1; but when the
service port is reachable while the binary is absent, the artifact check
raises an uncaught `FileNotFoundError` that crashes the iteration. -/
theorem c5_error_propagation (w : World) :
    ((ensure_ollama_running w.svcUpAtCheck w.ollamaInstalled w.poll).ok =
        false → mainStep w "2" = .menu) ∧
    ((ensure_ollama_running w.svcUpAtCheck w.ollamaInstalled w.poll).ok =
        true → w.ollamaInstalled = false →
      mainStep w "2" = .crashed "FileNotFoundError") ∧
    (w.ollamaInstalled = true →
      (ensure_model_pulled true w.localModel w.listOut
          w.pullExitZero).result = .ret false →
      mainStep w "2" = .menu) ∧
    ((ensure_ollama_running w.svcUpAtCheck w.ollamaInstalled w.poll).ok =
        true → w.ollamaInstalled = true →
      (ensure_model_pulled true w.localModel w.listOut
          w.pullExitZero).result = .ret true →
      get_aider_path w.venvBin w.fileAt w.pathDirs = none →
      mainStep w "2" = .exited 1 (aiderMissingMsgs w.venvBin)) := by
  refine ⟨?_, ?_, ?_, ?_⟩
  · intro h
    rw [mainStep_two, h]
    rfl
  · intro hok hni
    rw [mainStep_two, hok, hni]
    simp [ensure_model_pulled]
  · intro hi hpull
    by_cases hok :
      (ensure_ollama_running w.svcUpAtCheck w.ollamaInstalled w.poll).ok
    · rw [mainStep_two, hok, hi, hpull]
      rfl
    · rw [mainStep_two]
      simp [hok]
  · intro hok hi hpull hnone
    rw [mainStep_two, hok, hi, hpull]
    simp [dispatchAider, hnone]

/-- Witness for C5 at a concrete world whose service never becomes
reachable: the timeout failure returns control to the menu. -/
theorem c5_error_propagation_witness :
    mainStep wNeverUp "2" = Outcome.menu :=
  (c5_error_propagation wNeverUp).1 (by decide)

/-- C7: for every world whose service remediation succeeds and whose
model identifier (after removal of "ollama/") is absent from the
inspection output, a non-zero fetch exit makes the artifact remediation
report the fetch failure and return `False`, and the iteration returns to
the menu — in particular no agent launch is attempted, since the outcome
is `menu` and not `launched`. -/
theorem c7_fetch_failure (w : World)
    (h0 : (ensure_ollama_running w.svcUpAtCheck w.ollamaInstalled
      w.poll).ok = true)
    (h1 : w.ollamaInstalled = true)
    (h2 : strContains w.listOut (pyReplace w.localModel "ollama/" "") =
      false)
    (h3 : w.pullExitZero = false) :
    (ensure_model_pulled w.ollamaInstalled w.localModel w.listOut
      w.pullExitZero).fetchFailed = true ∧
    (ensure_model_pulled w.ollamaInstalled w.localModel w.listOut
      w.pullExitZero).result = .ret false ∧
    mainStep w "2" = .menu := by
  have hp : ensure_model_pulled w.ollamaInstalled w.localModel w.listOut
      w.pullExitZero =
      { result := .ret false,
        checkedId := pyReplace w.localModel "ollama/" "",
        pullInvoked := true,
        pullArg := some (pyReplace w.localModel "ollama/" ""),
        fetchFailed := true } := by
    rw [h1]
    simp [ensure_model_pulled, h2, h3]
  refine ⟨by rw [hp], by rw [hp], ?_⟩
  rw [mainStep_two, h0, hp]
  rfl

/-- Witness for C7 at a concrete world whose artifact is absent and whose
fetch fails. -/
theorem c7_fetch_failure_witness :
    (ensure_model_pulled wFetchFail.ollamaInstalled wFetchFail.localModel
      wFetchFail.listOut wFetchFail.pullExitZero).fetchFailed = true ∧
    (ensure_model_pulled wFetchFail.ollamaInstalled wFetchFail.localModel
      wFetchFail.listOut wFetchFail.pullExitZero).result =
        PyOutcome.ret false ∧
    mainStep wFetchFail "2" = Outcome.menu :=
  c7_fetch_failure wFetchFail rfl rfl (by decide) rfl

/-- A string contains its own suffix as a substring. -/
theorem strContains_append (a b : String) : strContains (a ++ b) b = true := by
  have hm : a.data.length ∈ List.range ((a.data ++ b.data).length + 1) := by
    rw [List.mem_range, List.length_append]
    omega
  have hpre : b.data.isPrefixOf ((a.data ++ b.data).drop a.data.length) =
      true := by
    rw [List.drop_left]
    simp [ List.isPrefixOf_iff_prefix]
  unfold strContains containsSub
  rw [String.data_append, List.any_eq_true]
  exact ⟨a.data.length, hm, hpre⟩

/-- C8 counterexample: with the agent executable absent both next to the
interpreter (directory "/venv/bin") and from the search path (directory
"/usr/bin"), resolution returns none and the process exits with status 1,
but the diagnostic names only the interpreter-colocated directory: no
printed line mentions the searched path directory "/usr/bin" — refuting
the claim that the diagnostic names the searched locations. -/
theorem c8_counterexample :
    get_aider_path "/venv/bin" (fun _ => false) ["/usr/bin"] = none ∧
    mainStep wNoAider "1" = Outcome.exited 1 (aiderMissingMsgs "/venv/bin") ∧
    ((aiderMissingMsgs "/venv/bin").any fun m =>
      strContains m "/usr/bin") = false := by decide

/-- C8 amended: whenever cloud mode dispatches and the agent executable
is absent from both search locations (resolution returns none), the
process terminates with the non-zero exit status 1 and a diagnostic that
names the interpreter-colocated directory; the system search path,
although searched, is not named. -/
theorem c8_aider_missing (w : World)
    (hc : (w.online && optTruthy w.apiKey) = true)
    (hnone : get_aider_path w.venvBin w.fileAt w.pathDirs = none) :
    mainStep w "1" = .exited 1 (aiderMissingMsgs w.venvBin) ∧
    ∃ m ∈ aiderMissingMsgs w.venvBin, strContains m w.venvBin = true := by
  constructor
  · rw [mainStep_one, hc]
    simp [dispatchAider, hnone]
  · refine ⟨"Looked in: " ++ w.venvBin, ?_, strContains_append _ _⟩
    simp [aiderMissingMsgs]

/-- Witness for C8 at a concrete world with the executable absent from
both locations. -/
theorem c8_aider_missing_witness :
    mainStep wNoAider "1" =
      Outcome.exited 1 (aiderMissingMsgs wNoAider.venvBin) ∧
    ∃ m ∈ aiderMissingMsgs wNoAider.venvBin,
      strContains m wNoAider.venvBin = true :=
  c8_aider_missing wNoAider (by decide) (by decide)

/-- Overwriting an existing key in place makes lookup of that key return
the new value. -/
theorem dictGet_map_set_same (k v : String) :
    ∀ d : List (String × String), d.any (fun p => p.1 == k) = true →
    dictGet (d.map fun p => if p.1 == k then (k, v) else p) k = some v := by
  intro d
  induction d with
  | nil => intro h; simp at h
  | cons a t ih =>
    intro h
    by_cases hak : (a.1 == k) = true
    · simp only [List.map_cons, if_pos hak, dictGet]
      rw [List.find?_cons_of_pos _ (by simp)]
      rfl
    · simp only [List.any_cons, Bool.or_eq_true] at h
      have h' : t.any (fun p => p.1 == k) = true := by
        rcases h with h | h
        · exact absurd h hak
        · exact h
      simp only [List.map_cons, if_neg hak, dictGet] at ih ⊢
      rw [List.find?_cons_of_neg _ (by simpa using hak)]
      exact ih h'

/-- Overwriting one key in place leaves lookups of every other key
unchanged. -/
theorem dictGet_map_set_ne (k v k' : String) (hne : k' ≠ k) :
    ∀ d : List (String × String),
    dictGet (d.map fun p => if p.1 == k then (k, v) else p) k' =
      dictGet d k' := by
  intro d
  induction d with
  | nil => rfl
  | cons a t ih =>
    by_cases hak : (a.1 == k) = true
    · have ha : a.1 = k := by simpa using hak
      simp only [List.map_cons, if_pos hak, dictGet] at ih ⊢
      rw [List.find?_cons_of_neg _ (by simp [hne.symm]),
        List.find?_cons_of_neg _ (by simp [ha, hne.symm])]
      exact ih
    · simp only [List.map_cons, if_neg hak, dictGet] at ih ⊢
      by_cases hak' : (a.1 == k') = true
      · simp only [List.find?_cons, hak']
      · rw [List.find?_cons_of_neg _ (by simpa using hak'),
          List.find?_cons_of_neg _ (by simpa using hak')]
        exact ih

/-- Setting a key makes lookup of that key return the value, whether the
key was present or appended. -/
theorem dictGet_dictSet_same (d : List (String × String)) (k v : String) :
    dictGet (dictSet d k v) k = some v := by
  unfold dictSet
  by_cases hany : d.any (fun p => p.1 == k) = true
  · rw [if_pos hany]
    exact dictGet_map_set_same k v d hany
  · rw [if_neg hany]
    have hnone : d.find? (fun p => p.1 == k) = none := by
      rw [List.find?_eq_none]
      intro x hx hpx
      exact hany (List.any_eq_true.mpr ⟨x, hx, hpx⟩)
    unfold dictGet
    rw [List.find?_append, hnone, List.find?_cons_of_pos _ (by simp)]
    rfl

/-- Setting one key leaves lookups of every other key unchanged. -/
theorem dictGet_dictSet_ne (d : List (String × String)) (k v k' : String)
    (hne : k' ≠ k) : dictGet (dictSet d k v) k' = dictGet d k' := by
  unfold dictSet
  by_cases hany : d.any (fun p => p.1 == k) = true
  · rw [if_pos hany]
    exact dictGet_map_set_ne k v k' hne d
  · rw [if_neg hany]
    unfold dictGet
    rw [List.find?_append]
    have : List.find? (fun p => p.1 == k') [(k, v)] = none := by
      rw [List.find?_eq_none]
      intro x hx hpx
      rw [List.mem_singleton] at hx
      subst hx
      exact hne.symm (by simpa using hpx)
    rw [this, Option.or_none]

/-- C9: building the launch environment never mutates the inherited base
environment — the environment is built purely from a copy, the inherited
mapping `w.baseEnv` is passed through unchanged — and the credential
variable is overlaid only for Cloud launches: a Local launch hands the
agent exactly the inherited environment with no credential key added,
while a Cloud launch hands it the inherited environment with only the
credential key added or overridden (every other key reads as in the
base). -/
theorem c9_environment_overlay (w : World) (base : List (String × String))
    (key k' : String) :
    ((ensure_ollama_running w.svcUpAtCheck w.ollamaInstalled w.poll).ok =
        true →
      w.ollamaInstalled = true →
      (ensure_model_pulled true w.localModel w.listOut
        w.pullExitZero).result = .ret true →
      w.fileAt (w.venvBin ++ "/aider") = true →
      mainStep w "2" =
        .launched (aiderArgs (w.venvBin ++ "/aider") w.localModel)
          w.baseEnv) ∧
    ((w.online && optTruthy w.apiKey) = true →
      w.fileAt (w.venvBin ++ "/aider") = true →
      mainStep w "1" =
        .launched (aiderArgs (w.venvBin ++ "/aider") w.geminiModel)
          (dictSet w.baseEnv "GEMINI_API_KEY" (w.apiKey.getD ""))) ∧
    dictGet (dictSet base "GEMINI_API_KEY" key) "GEMINI_API_KEY" =
      some key ∧
    (k' ≠ "GEMINI_API_KEY" →
      dictGet (dictSet base "GEMINI_API_KEY" key) k' = dictGet base k') := by
  refine ⟨?_, ?_, dictGet_dictSet_same base _ key,
    fun h => dictGet_dictSet_ne base _ key k' h⟩
  · intro hok hi hpull hf
    rw [mainStep_two, hok, hi, hpull]
    simp [dispatchAider, get_aider_path, hf]
  · intro hc hf
    rw [mainStep_one, hc]
    simp [dispatchAider, get_aider_path, hf]

/-- Witness for C9 at a concrete world where both launches proceed: the
Local launch receives exactly the inherited environment, the Cloud launch
receives it with only the credential key added. -/
theorem c9_environment_overlay_witness :
    mainStep wLaunch "2" =
      Outcome.launched
        (aiderArgs (wLaunch.venvBin ++ "/aider") wLaunch.localModel)
        wLaunch.baseEnv ∧
    mainStep wLaunch "1" =
      Outcome.launched
        (aiderArgs (wLaunch.venvBin ++ "/aider") wLaunch.geminiModel)
        (dictSet wLaunch.baseEnv "GEMINI_API_KEY" "secret") ∧
    dictGet (dictSet [("PATH", "/x")] "GEMINI_API_KEY" "secret")
      "GEMINI_API_KEY" = some "secret" ∧
    dictGet (dictSet [("PATH", "/x")] "GEMINI_API_KEY" "secret") "PATH" =
      dictGet [("PATH", "/x")] "PATH" := by
  have t := c9_environment_overlay wLaunch [("PATH", "/x")] "secret" "PATH"
  exact ⟨t.1 (by decide) rfl (by decide) (by decide),
    t.2.1 (by decide) (by decide), t.2.2.1, t.2.2.2 (by decide)⟩

/-- C10: for every configured local model identifier, the artifact check
and the fetch command use the identifier with every occurrence of
"ollama/" removed (the `clean_id` of the source), while a Local launch
passes the configured identifier verbatim as the value of the `--model`
argument of the agent command line. -/
theorem c10_identifier_flow (w : World) (mid listOut : String) (pz : Bool) :
    (ensure_model_pulled true mid listOut pz).checkedId =
      pyReplace mid "ollama/" "" ∧
    (∀ a, (ensure_model_pulled true mid listOut pz).pullArg = some a →
      a = pyReplace mid "ollama/" "") ∧
    (∀ args env, mainStep w "2" = .launched args env →
      args.get? 1 = some "--model" ∧ args.get? 2 = some w.localModel) := by
  refine ⟨?_, ?_, ?_⟩
  · unfold ensure_model_pulled
    by_cases h1 : strContains listOut (pyReplace mid "ollama/" "") = true
    · simp [h1]
    · by_cases h2 : pz = true <;> simp [h1, h2]
  · intro a h
    unfold ensure_model_pulled at h
    by_cases h1 : strContains listOut (pyReplace mid "ollama/" "") = true
    · simp [h1] at h
    · by_cases h2 : pz = true
      · simp [h1, h2] at h
        exact h.symm
      · simp [h1, h2] at h
        exact h.symm
  · intro args env h
    rw [mainStep_two] at h
    by_cases hok :
      (ensure_ollama_running w.svcUpAtCheck w.ollamaInstalled w.poll).ok =
        true
    · rw [hok] at h
      simp only [Bool.not_true] at h
      rw [if_neg (by simp)] at h
      cases hres : (ensure_model_pulled w.ollamaInstalled w.localModel
          w.listOut w.pullExitZero).result with
      | raised e =>
        rw [hres] at h
        simp at h
      | ret b =>
        rw [hres] at h
        cases b with
        | false => simp at h
        | true =>
          simp only [] at h
          cases hpath : get_aider_path w.venvBin w.fileAt w.pathDirs with
          | none =>
            simp [dispatchAider, hpath] at h
          | some p =>
            simp [dispatchAider, hpath] at h
            rcases h with ⟨h1, h2⟩
            rw [← h1]
            simp [aiderArgs]
    · have hok' : (ensure_ollama_running w.svcUpAtCheck w.ollamaInstalled
          w.poll).ok = false := by
        simpa using hok
      rw [hok'] at h
      simp at h

/-- Witness for C10: the checked identifier and fetch argument of a
concrete run equal the identifier with every "ollama/" removed, and the
concrete launched argument vector carries the configured identifier
verbatim after the `--model` flag. -/
theorem c10_identifier_flow_witness :
    (ensure_model_pulled true "ollama/qwen2.5-coder:32b" "NAME"
      true).checkedId = pyReplace "ollama/qwen2.5-coder:32b" "ollama/" "" ∧
    "qwen2.5-coder:32b" = pyReplace "ollama/qwen2.5-coder:32b" "ollama/" "" ∧
    ((aiderArgs (wLaunch.venvBin ++ "/aider") wLaunch.localModel).get? 1 =
        some "--model" ∧
      (aiderArgs (wLaunch.venvBin ++ "/aider") wLaunch.localModel).get? 2 =
        some wLaunch.localModel) := by
  have t := c10_identifier_flow wLaunch "ollama/qwen2.5-coder:32b" "NAME"
    true
  exact ⟨t.1, t.2.1 "qwen2.5-coder:32b" (by decide),
    t.2.2 (aiderArgs (wLaunch.venvBin ++ "/aider") wLaunch.localModel)
      wLaunch.baseEnv (by decide)⟩

end Bridge
